import Mathlib

/-!
Verification of the `Sid` value type from `src/windows/sid.rs` of the
`sysinfo` crate, against its natural-language specification.

The operating-system calls (`IsValidSid`, `GetLengthSid`, `CopySid`,
`ConvertSidToStringSidW`, `ConvertStringSidToSidW`, `LookupAccountSidW`)
and the wide-string decoding utility `to_utf8_str` are external
collaborators of this core (spec §1, §6); they are modelled as an explicit
environment `Platform` of pure functions, and every operation of `sid.rs`
is embedded as a Lean function over that environment.  Rust panics
(`assert_eq!`, indexing, `unwrap`) are made explicit through an `Outcome`
type, and the native-allocation and debug-logging side effects are made
explicit through an event trace, so that resource-release and diagnostics
claims can be stated.
-/

/-- Outcome of a Rust computation that may abort fatally: either a normal
value or a panic carrying its message. -/
inductive Outcome (α : Type) where
  | ok (a : α)
  | fatal (msg : String)
deriving DecidableEq, Repr

/-- Observable side effects of the embedded operations: debug-channel
diagnostics (`sysinfo_debug!`) and acquisition/release of natively
allocated buffers (the PSID returned by `ConvertStringSidToSidW` and the
string returned by `ConvertSidToStringSidW`, both released by
`LocalFree`). -/
inductive Event where
  | log
  | allocPsid
  | freePsid
  | allocStringSid
  | freeStringSid
deriving DecidableEq, Repr

/-- A raw platform handle (`PSID`), modelled as a pointer value; `0` is the
null pointer. -/
abbrev Psid : Type := Nat

/-- Embedding of `PSID::is_invalid` from the `windows` crate: the handle is
invalid exactly when it is the null pointer. -/
def Psid.is_invalid (p : Psid) : Bool := p == 0

/-- Result of the first (zero-length probe) `LookupAccountSidW` call: the
call's result (`Except` error code on failure) together with the values the
platform wrote into `name_len` and `domain_len`. -/
structure ProbeResult where
  res : Except Nat Unit
  nameLen : Nat
  domainLen : Nat

/-- Result of a successful second (filled) `LookupAccountSidW` call: the
contents the platform wrote into the name and domain buffers, and the
values it left in `name_len` and `domain_len`. -/
structure FillResult where
  name : List Nat
  domain : List Nat
  nameLen : Nat
  domainLen : Nat

/-- The external platform collaborators consumed by `sid.rs` (spec §6),
as pure functions.  Wide strings are lists of UTF-16 code units; SID byte
buffers are lists of bytes. -/
structure Platform where
  /-- `IsValidSid`: whether the handle references a well-formed SID. -/
  isValidSid : Psid → Bool
  /-- `GetLengthSid`: byte length of the referenced structure. -/
  getLengthSid : Psid → Nat
  /-- `CopySid length buffer psid`: given the handle and the requested
  length, either fails or succeeds leaving the given contents in the
  destination buffer. -/
  copySid : Psid → Nat → Except Unit (List Nat)
  /-- `ConvertSidToStringSidW`: converts raw SID bytes to a natively
  allocated, null-terminated wide string. -/
  convertSidToStringSidW : List Nat → Except Unit (List Nat)
  /-- `ConvertStringSidToSidW`: converts a null-terminated wide string to a
  natively allocated SID structure, or fails with a descriptive error. -/
  convertStringSidToSidW : List Nat → Except String Psid
  /-- `to_utf8_str` (the crate's wide-string decoding utility, out of scope
  per spec §1): decodes a native wide-character buffer to a `String`. -/
  toUtf8Str : List Nat → String
  /-- First `LookupAccountSidW` call (zero-length probe). -/
  lookupAccountSidProbe : List Nat → ProbeResult
  /-- Second `LookupAccountSidW` call, given the SID bytes and the buffer
  sizes discovered by the probe. -/
  lookupAccountSidFill : List Nat → Nat → Nat → Except Unit FillResult

/-- The error code `ERROR_INSUFFICIENT_BUFFER` (122), the expected response
to the zero-length probe lookup. -/
def ERROR_INSUFFICIENT_BUFFER : Nat := 122

/-- The `Sid` value type: an owned byte buffer holding the raw binary
encoding of a security identifier (`struct Sid { sid: Vec<u8> }`). -/
structure Sid where
  sid : List Nat
deriving DecidableEq, Repr

/-- Embedding of `Sid::from_psid`: copy the referenced structure into an
owned buffer, returning `none` on an invalid handle, failed validation or
failed copy (with a debug diagnostic in the copy-failure case), and
aborting fatally (`assert_eq!(sid[0], 1)`) when the copied buffer's first
byte is not revision 1 — including the index panic when the buffer is
empty. -/
def Sid.from_psid (env : Platform) (psid : Psid) : Outcome (Option Sid) × List Event :=
  if psid.is_invalid then (.ok none, [])
  else if !(env.isValidSid psid) then (.ok none, [])
  else
    let length := env.getLengthSid psid
    match env.copySid psid length with
    | .error _ => (.ok none, [.log])
    | .ok sid =>
      match sid with
      | [] => (.fatal "index out of bounds: the len is 0 but the index is 0", [])
      | b :: _ =>
        if b = 1 then (.ok (some { sid := sid }), [])
        else (.fatal "Expected SID revision to be 1", [])

/-- Embedding of `Rust`'s `str::encode_utf16` for one character. -/
def utf16Char (c : Char) : List Nat :=
  if c.val.toNat < 0x10000 then [c.val.toNat]
  else [0xD800 + (c.val.toNat - 0x10000) / 0x400, 0xDC00 + (c.val.toNat - 0x10000) % 0x400]

/-- Embedding of `s.encode_utf16().collect::<Vec<u16>>()`. -/
def encode_utf16 (s : String) : List Nat :=
  (s.data.map utf16Char).flatten

/-- Embedding of the helper `convert_sid_to_string_sid` inside
`impl Display for Sid`: ask the platform to convert the raw bytes to a
natively allocated wide string; on failure log a diagnostic and return
`none`; on success decode it with `to_utf8_str` and release the native
string with `LocalFree`. -/
def convert_sid_to_string_sid (env : Platform) (bytes : List Nat) :
    Option String × List Event :=
  match env.convertSidToStringSidW bytes with
  | .error _ => (none, [.log])
  | .ok string_sid =>
    let result := env.toUtf8Str string_sid
    (some result, [.allocStringSid, .freeStringSid])

/-- Embedding of `std::fmt::Error`: the typed failure returned by
`Display::fmt`, distinct from the `String` parse errors of `from_str`. -/
inductive FmtError where
  | error
deriving DecidableEq, Repr

/-- Embedding of `<Sid as Display>::fmt`: convert the byte buffer through
`convert_sid_to_string_sid`; absence becomes the typed formatting error
(`ok_or(std::fmt::Error)?`), success writes exactly the converted
string. -/
def Sid.fmt (env : Platform) (self : Sid) : Except FmtError String × List Event :=
  match convert_sid_to_string_sid env self.sid with
  | (none, ev) => (.error .error, ev)
  | (some s, ev) => (.ok s, ev)

/-- Embedding of `<Sid as FromStr>::from_str`: encode the input to a
null-terminated wide string, convert it via `ConvertStringSidToSidW`
(returning a descriptive `Err` on failure), build the `Sid` through
`from_psid`, release the native structure with `LocalFree`, and `unwrap`
the option (fatal when `from_psid` yielded `none`).  Note the source frees
AFTER `from_psid` returns, so a panic inside `from_psid` skips the
release. -/
def Sid.from_str (env : Platform) (s : String) :
    Outcome (Except String Sid) × List Event :=
  let string_sid := encode_utf16 s ++ [0]
  match env.convertStringSidToSidW string_sid with
  | .error err => (.ok (.error ("ConvertStringSidToSidW failed: " ++ err)), [])
  | .ok psid =>
    match Sid.from_psid env psid with
    | (.fatal m, ev) => (.fatal m, .allocPsid :: ev)
    | (.ok none, ev) =>
      (.fatal "called Option::unwrap on a None value", .allocPsid :: (ev ++ [.freePsid]))
    | (.ok (some sid), ev) => (.ok (.ok sid), .allocPsid :: (ev ++ [.freePsid]))

/-- Embedding of the derived `PartialEq`/`Eq` on `Sid`: structural equality
of the byte buffers. -/
def Sid.beq (a b : Sid) : Bool := a.sid == b.sid

/-- Lexicographic comparison of byte sequences: the derived
`PartialOrd`/`Ord` of `Vec<u8>` (element-wise, then by length). -/
def cmpBytes : List Nat → List Nat → Ordering
  | [], [] => .eq
  | [], _ :: _ => .lt
  | _ :: _, [] => .gt
  | a :: as, b :: bs =>
    if a < b then .lt else if b < a then .gt else cmpBytes as bs

/-- Embedding of the derived `Ord` on `Sid`: comparison of the byte
buffers. -/
def Sid.cmp (a b : Sid) : Ordering := cmpBytes a.sid b.sid

/-- Embedding of the derived `Hash` on `Sid`: the hash feeds exactly the
byte buffer to the hasher, so for any hasher the hash value is a function
of `sid` alone. -/
def Sid.hashWith (h : List Nat → Nat) (a : Sid) : Nat := h a.sid

/-- Embedding of the source's handling of the probe result: the lookup
continues unless the probe failed with an error code other than
`ERROR_INSUFFICIENT_BUFFER` (`err.code() != ERROR_INSUFFICIENT_BUFFER.to_hresult()`). -/
def probeTolerated (r : Except Nat Unit) : Bool :=
  match r with
  | .error code => code == ERROR_INSUFFICIENT_BUFFER
  | .ok _ => true

/-- Embedding of `Sid::account_name_and_domain`: probe lookup (tolerating
`ERROR_INSUFFICIENT_BUFFER`, treating any other failure as absence with a
diagnostic), filled lookup (failure is absence with a diagnostic), then
decode; a resulting `domain_len <= 1` or a decoded-but-empty domain string
yields no domain. -/
def Sid.account_name_and_domain (env : Platform) (self : Sid) :
    Option (String × Option String) :=
  let probe := env.lookupAccountSidProbe self.sid
  let cont : Bool := probeTolerated probe.res
  if !cont then none
  else
    match env.lookupAccountSidFill self.sid probe.nameLen probe.domainLen with
    | .error _ => none
    | .ok fill =>
      let username := env.toUtf8Str fill.name
      let domain_name :=
        if fill.domainLen > 1 then
          let domain_str := env.toUtf8Str fill.domain
          if domain_str.isEmpty then none else some domain_str
        else none
      some (username, domain_name)

/-- Embedding of `Sid::account_name`: the name component of
`account_name_and_domain`. -/
def Sid.account_name (env : Platform) (self : Sid) : Option String :=
  match Sid.account_name_and_domain env self with
  | none => none
  | some (name, _domain) => some name

/-! ### Helper lemmas about the byte-wise comparison -/

/-- Comparison of a byte sequence with itself yields `eq`. -/
theorem cmpBytes_self : ∀ xs : List Nat, cmpBytes xs xs = .eq := by
  intro xs
  induction xs with
  | nil => rfl
  | cons a as ih => simp [cmpBytes, ih]

/-- Comparison yields `eq` exactly on equal byte sequences. -/
theorem cmpBytes_eq_iff : ∀ xs ys : List Nat, cmpBytes xs ys = .eq ↔ xs = ys := by
  intro xs
  induction xs with
  | nil => intro ys; cases ys <;> simp [cmpBytes]
  | cons a as ih =>
    intro ys
    cases ys with
    | nil => simp [cmpBytes]
    | cons b bs =>
      simp only [cmpBytes]
      rcases Nat.lt_trichotomy a b with hab | rfl | hab
      · simp only [if_pos hab]
        simp [List.cons.injEq]
        rintro rfl
        omega
      · simp [Nat.lt_irrefl, ih]
      · rw [if_neg (by omega), if_pos hab]
        simp [List.cons.injEq]
        rintro rfl
        omega

/-- Comparison is antisymmetric: `gt` one way is `lt` the other way. -/
theorem cmpBytes_gt_iff : ∀ xs ys : List Nat, cmpBytes xs ys = .gt ↔ cmpBytes ys xs = .lt := by
  intro xs
  induction xs with
  | nil => intro ys; cases ys <;> simp [cmpBytes]
  | cons a as ih =>
    intro ys
    cases ys with
    | nil => simp [cmpBytes]
    | cons b bs =>
      simp only [cmpBytes]
      rcases Nat.lt_trichotomy a b with hab | rfl | hab
      · rw [if_pos hab, if_neg (by omega), if_pos hab]
        simp
      · simp [Nat.lt_irrefl, ih]
      · rw [if_neg (by omega), if_pos hab, if_pos hab]
        simp

/-- The strict part of the comparison is transitive. -/
theorem cmpBytes_lt_trans : ∀ xs ys zs : List Nat,
    cmpBytes xs ys = .lt → cmpBytes ys zs = .lt → cmpBytes xs zs = .lt := by
  intro xs
  induction xs with
  | nil =>
    intro ys zs h1 h2
    cases zs with
    | nil =>
      cases ys with
      | nil => simp [cmpBytes] at h1
      | cons b bs => simp [cmpBytes] at h2
    | cons c cs => simp [cmpBytes]
  | cons a as ih =>
    intro ys zs h1 h2
    cases ys with
    | nil => simp [cmpBytes] at h1
    | cons b bs =>
      cases zs with
      | nil => simp [cmpBytes] at h2
      | cons c cs =>
        simp only [cmpBytes] at h1 h2 ⊢
        rcases Nat.lt_trichotomy a b with hab | rfl | hab
        · rcases Nat.lt_trichotomy b c with hbc | rfl | hbc
          · rw [if_pos (by omega)]
          · rw [if_pos hab]
          · rw [if_neg (by omega), if_pos hbc] at h2
            exact absurd h2 (by simp)
        · rcases Nat.lt_trichotomy a c with hac | rfl | hac
          · rw [if_pos hac]
          · rw [if_neg (by omega), if_neg (by omega)] at h1 h2 ⊢
            exact ih bs cs h1 h2
          · rw [if_neg (by omega), if_pos hac] at h2
            exact absurd h2 (by simp)
        · rw [if_neg (by omega), if_pos hab] at h1
          exact absurd h1 (by simp)

/-! ### Helper lemmas: the revision-1 invariant of constructed Sids -/

/-- A `Sid` successfully produced by `from_psid` has a non-empty buffer whose
first byte is 1. -/
theorem from_psid_some_invariant (env : Platform) (p : Psid) (a : Sid)
    (h : (Sid.from_psid env p).1 = .ok (some a)) :
    a.sid ≠ [] ∧ a.sid.head? = some 1 := by
  simp only [Sid.from_psid] at h
  split at h
  · simp at h
  · split at h
    · simp at h
    · split at h
      · simp at h
      · split at h
        · simp at h
        · rename_i b rest
          split at h
          · rename_i hb
            simp only [Prod.fst] at h
            injection h with h
            injection h with h
            subst h
            subst hb
            simp
          · simp at h

/-- A `Sid` successfully produced by `from_str` has a non-empty buffer whose
first byte is 1. -/
theorem from_str_ok_invariant (env : Platform) (s : String) (b : Sid)
    (h : (Sid.from_str env s).1 = .ok (.ok b)) :
    b.sid ≠ [] ∧ b.sid.head? = some 1 := by
  simp only [Sid.from_str] at h
  split at h
  · simp at h
  · rename_i psid heq
    split at h
    · simp at h
    · simp at h
    · rename_i sid ev heq2
      simp only [Prod.fst] at h
      injection h with h
      injection h with h
      subst h
      exact from_psid_some_invariant env psid _ (by rw [heq2])

/-! ### Concrete platform instances used by the witnesses -/

/-- Decoding of a null-terminated wide-character buffer used by the concrete
platform instances below (each code unit below the surrogate range maps to
the corresponding character). -/
def utf16ToStr (w : List Nat) : String :=
  String.mk ((w.takeWhile (fun c => c != 0)).map Char.ofNat)

/-- A concrete platform on which every operation succeeds: handle `7`
references the SID `[1, 2, 3]`, whose canonical form is `"S-1-2-3"`, and
account resolution yields name `"name"` and domain `"dom"`. -/
def envOk : Platform where
  isValidSid := fun p => p == 7
  getLengthSid := fun _ => 3
  copySid := fun p _ => if p == 7 then .ok [1, 2, 3] else .error ()
  convertSidToStringSidW := fun bytes =>
    if bytes == [1, 2, 3] then .ok (encode_utf16 "S-1-2-3" ++ [0]) else .error ()
  convertStringSidToSidW := fun ws =>
    if ws == encode_utf16 "S-1-2-3" ++ [0] then .ok 7 else .error "invalid SID string"
  toUtf8Str := utf16ToStr
  lookupAccountSidProbe := fun _ => ⟨.error ERROR_INSUFFICIENT_BUFFER, 5, 4⟩
  lookupAccountSidFill := fun _ nl dl =>
    .ok ⟨encode_utf16 "name" ++ [0], encode_utf16 "dom" ++ [0], nl, dl⟩

/-! ### Claim theorems -/

/-- Claim C1: every successfully constructed Identifier — whether built from
an opaque handle via `from_psid` or parsed from a canonical string via
`from_str` — has a non-empty byte buffer whose first byte (the encoding
revision) equals 1; when this cannot be established construction returns
`none`/an error or aborts fatally, and since the embedding is purely
functional no operation ever mutates a constructed buffer, so the invariant
holds for every reachable `Sid` value. -/
theorem sid_revision_invariant (env : Platform) (p : Psid) (s : String) (a b : Sid) :
    ((Sid.from_psid env p).1 = .ok (some a) → a.sid ≠ [] ∧ a.sid.head? = some 1)
  ∧ ((Sid.from_str env s).1 = .ok (.ok b) → b.sid ≠ [] ∧ b.sid.head? = some 1) :=
  ⟨from_psid_some_invariant env p a, from_str_ok_invariant env s b⟩

/-- Concrete instantiation of `sid_revision_invariant`: on `envOk`,
`from_psid` at handle 7 yields the SID `[1, 2, 3]`, which is non-empty with
first byte 1. -/
theorem sid_revision_invariant_witness :
    (⟨[1, 2, 3]⟩ : Sid).sid ≠ [] ∧ (⟨[1, 2, 3]⟩ : Sid).sid.head? = some 1 :=
  (sid_revision_invariant envOk 7 "S-1-2-3" ⟨[1, 2, 3]⟩ ⟨[1, 2, 3]⟩).1 rfl

/-- Claim C2: Sid equality holds iff the byte sequences are equal; equal Sids
hash identically under any hasher; the derived ordering is total and
transitive; and it is consistent with equality — two Sids are equal iff
neither is strictly below the other. -/
theorem sid_eq_ord_hash_consistent (a b c : Sid) (h : List Nat → Nat) :
    (Sid.beq a b = true ↔ a.sid = b.sid)
  ∧ (Sid.beq a b = true → Sid.hashWith h a = Sid.hashWith h b)
  ∧ (Sid.cmp a b = .lt ∨ Sid.cmp a b = .eq ∨ Sid.cmp a b = .gt)
  ∧ (Sid.cmp a b = .lt → Sid.cmp b c = .lt → Sid.cmp a c = .lt)
  ∧ (Sid.beq a b = true ↔ (Sid.cmp a b ≠ .lt ∧ Sid.cmp b a ≠ .lt)) := by
  refine ⟨by simp [Sid.beq], ?_, ?_, cmpBytes_lt_trans a.sid b.sid c.sid, ?_⟩
  · intro hab
    simp only [Sid.beq, beq_iff_eq] at hab
    simp [Sid.hashWith, hab]
  · cases hc : Sid.cmp a b
    · exact .inl rfl
    · exact .inr (.inl rfl)
    · exact .inr (.inr rfl)
  · constructor
    · intro hab
      simp only [Sid.beq, beq_iff_eq] at hab
      constructor
      · simp [Sid.cmp, hab, cmpBytes_self]
      · simp [Sid.cmp, hab, cmpBytes_self]
    · rintro ⟨h1, h2⟩
      simp only [Sid.cmp] at h1 h2
      simp only [Sid.beq, beq_iff_eq]
      cases hc : cmpBytes a.sid b.sid with
      | lt => exact absurd hc h1
      | eq => exact (cmpBytes_eq_iff a.sid b.sid).mp hc
      | gt => exact absurd ((cmpBytes_gt_iff a.sid b.sid).mp hc) h2

/-- Concrete instantiation of `sid_eq_ord_hash_consistent`: equal Sids hash
identically, and strict ordering composes transitively on the concrete
chain `[1, 2] < [1, 3] < [1, 4]`. -/
theorem sid_eq_ord_hash_consistent_witness :
    Sid.hashWith List.length ⟨[1, 2]⟩ = Sid.hashWith List.length ⟨[1, 2]⟩
  ∧ Sid.cmp ⟨[1, 2]⟩ ⟨[1, 4]⟩ = .lt :=
  ⟨(sid_eq_ord_hash_consistent ⟨[1, 2]⟩ ⟨[1, 2]⟩ ⟨[1, 4]⟩ List.length).2.1 (by decide),
   (sid_eq_ord_hash_consistent ⟨[1, 2]⟩ ⟨[1, 3]⟩ ⟨[1, 4]⟩ List.length).2.2.2.1
     (by decide) (by decide)⟩

/-- Claim C3: for every handle passed to `from_psid`, if the handle is the
invalid (null) sentinel, or the platform validity check rejects it, or the
platform copy reports failure, then `from_psid` returns `none` and never
aborts; in the copy-failure case exactly one debug diagnostic is emitted
and control flow is otherwise unchanged. -/
theorem from_psid_failure_yields_none (env : Platform) (p : Psid) :
    (p.is_invalid = true → Sid.from_psid env p = (.ok none, []))
  ∧ (env.isValidSid p = false → Sid.from_psid env p = (.ok none, []))
  ∧ (∀ e, p.is_invalid = false → env.isValidSid p = true →
      env.copySid p (env.getLengthSid p) = .error e →
      Sid.from_psid env p = (.ok none, [.log])) := by
  refine ⟨?_, ?_, ?_⟩
  · intro h
    simp [Sid.from_psid, h]
  · intro h
    simp [Sid.from_psid, h]
  · intro e h1 h2 h3
    simp [Sid.from_psid, h1, h2, h3]

/-- Concrete instantiation of `from_psid_failure_yields_none`: the null
handle yields absence on `envOk`. -/
theorem from_psid_failure_yields_none_witness :
    Sid.from_psid envOk 0 = (.ok none, []) :=
  (from_psid_failure_yields_none envOk 0).1 rfl

/-- Claim C4: for every byte sequence `b` with first byte 1 that the
platform reports as a valid identifier of length `|b|` and copies
faithfully, `from_psid` succeeds and the resulting buffer is exactly `b`. -/
theorem from_psid_faithful_copy (env : Platform) (p : Psid) (b : List Nat)
    (hp : p.is_invalid = false) (hv : env.isValidSid p = true)
    (hl : env.getLengthSid p = b.length) (hc : env.copySid p b.length = .ok b)
    (h1 : b.head? = some 1) :
    Sid.from_psid env p = (.ok (some { sid := b }), []) := by
  cases b with
  | nil => simp at h1
  | cons x xs =>
    simp only [List.head?_cons, Option.some.injEq] at h1
    subst h1
    simp only [List.length_cons] at hc
    simp [Sid.from_psid, hp, hv, hl, hc]

/-- Concrete instantiation of `from_psid_faithful_copy`: handle 7 on `envOk`
yields exactly the bytes `[1, 2, 3]`. -/
theorem from_psid_faithful_copy_witness :
    Sid.from_psid envOk 7 = (.ok (some { sid := [1, 2, 3] }), []) :=
  from_psid_faithful_copy envOk 7 [1, 2, 3] rfl rfl rfl rfl rfl

/-- Claim C5: whenever the platform string-to-identifier conversion fails,
`from_str` returns a descriptive parse error naming the failing call as an
ordinary value, and never aborts. -/
theorem from_str_parse_error (env : Platform) (s : String) (e : String)
    (h : env.convertStringSidToSidW (encode_utf16 s ++ [0]) = .error e) :
    Sid.from_str env s =
      (.ok (.error ("ConvertStringSidToSidW failed: " ++ e)), []) := by
  simp [Sid.from_str, h]

/-- Concrete instantiation of `from_str_parse_error`: the syntactically
invalid input string yields a parse error on `envOk`. -/
theorem from_str_parse_error_witness :
    Sid.from_str envOk "not-a-sid" =
      (.ok (.error "ConvertStringSidToSidW failed: invalid SID string"), []) :=
  from_str_parse_error envOk "not-a-sid" "invalid SID string" rfl

/-- Claim C7: if the platform identifier-to-string conversion fails,
`Display::fmt` fails with the typed formatting error (`FmtError`, distinct
from the `String`-typed parse errors) after emitting a debug diagnostic;
if the conversion succeeds, the formatted output is exactly the converted
string. -/
theorem display_fmt_behavior (env : Platform) (a : Sid) :
    (∀ e, env.convertSidToStringSidW a.sid = .error e →
      Sid.fmt env a = (.error .error, [.log]))
  ∧ (∀ w, env.convertSidToStringSidW a.sid = .ok w →
      Sid.fmt env a = (.ok (env.toUtf8Str w), [.allocStringSid, .freeStringSid])) := by
  constructor
  · intro e he
    simp [Sid.fmt, convert_sid_to_string_sid, he]
  · intro w hw
    simp [Sid.fmt, convert_sid_to_string_sid, hw]

/-- Concrete instantiation of `display_fmt_behavior`: formatting the SID
`[1, 2, 3]` on `envOk` yields exactly the converted string. -/
theorem display_fmt_behavior_witness :
    Sid.fmt envOk ⟨[1, 2, 3]⟩ = (.ok "S-1-2-3", [.allocStringSid, .freeStringSid]) :=
  (display_fmt_behavior envOk ⟨[1, 2, 3]⟩).2 (encode_utf16 "S-1-2-3" ++ [0]) rfl

/-- Claim C8: `account_name_and_domain` returns `none` whenever the probe
lookup fails with an error other than `ERROR_INSUFFICIENT_BUFFER` or the
filled lookup fails; when the lookups succeed it returns the decoded name
paired with the decoded domain, except that a reported domain length of at
most 1 or a decoded-but-empty domain string yields no domain. -/
theorem account_resolution_behavior (env : Platform) (a : Sid) :
    (∀ c, (env.lookupAccountSidProbe a.sid).res = .error c →
      c ≠ ERROR_INSUFFICIENT_BUFFER → Sid.account_name_and_domain env a = none)
  ∧ (probeTolerated (env.lookupAccountSidProbe a.sid).res = true →
     ∀ e, env.lookupAccountSidFill a.sid (env.lookupAccountSidProbe a.sid).nameLen
        (env.lookupAccountSidProbe a.sid).domainLen = .error e →
      Sid.account_name_and_domain env a = none)
  ∧ (probeTolerated (env.lookupAccountSidProbe a.sid).res = true →
     ∀ r, env.lookupAccountSidFill a.sid (env.lookupAccountSidProbe a.sid).nameLen
        (env.lookupAccountSidProbe a.sid).domainLen = .ok r →
      Sid.account_name_and_domain env a =
        some (env.toUtf8Str r.name,
          if r.domainLen > 1 then
            if (env.toUtf8Str r.domain).isEmpty then none else some (env.toUtf8Str r.domain)
          else none)) := by
  refine ⟨?_, ?_, ?_⟩
  · intro c hc hne
    simp [Sid.account_name_and_domain, probeTolerated, hc, hne]
  · intro ht e he
    simp [Sid.account_name_and_domain, ht, he]
  · intro ht r hr
    simp [Sid.account_name_and_domain, ht, hr]

/-- Concrete instantiation of `account_resolution_behavior`: on `envOk` the
probe reports `ERROR_INSUFFICIENT_BUFFER` and the filled lookup succeeds,
so resolution yields the decoded name and domain. -/
theorem account_resolution_behavior_witness :
    Sid.account_name_and_domain envOk ⟨[1, 2, 3]⟩ = some ("name", some "dom") :=
  (account_resolution_behavior envOk ⟨[1, 2, 3]⟩).2.2 rfl
    ⟨encode_utf16 "name" ++ [0], encode_utf16 "dom" ++ [0], 5, 4⟩ rfl

/-- Claim C10: `account_name` is exactly the name component of
`account_name_and_domain`: it returns the first component when resolution
succeeds and `none` exactly when resolution yields `none`. -/
theorem account_name_is_name_component (env : Platform) (a : Sid) :
    Sid.account_name env a = (Sid.account_name_and_domain env a).map Prod.fst
  ∧ (Sid.account_name env a = none ↔ Sid.account_name_and_domain env a = none) := by
  constructor
  · unfold Sid.account_name
    cases Sid.account_name_and_domain env a with
    | none => rfl
    | some p => cases p; rfl
  · unfold Sid.account_name
    cases Sid.account_name_and_domain env a with
    | none => simp
    | some p => cases p; simp

/-- Claim C6: for every valid canonical string `s` — one the platform
converts — parsing yields an Identifier `a`; provided the platform's two
conversion directions cohere (formatting `a`'s bytes yields a string that
the platform converts back to a structure holding exactly those bytes, the
documented contract of the conversion pair), formatting `a` succeeds and
re-parsing the formatted string yields an Identifier equal to `a`. -/
theorem parse_format_roundtrip (env : Platform) (s : String) (a : Sid)
    (hparse : (Sid.from_str env s).1 = .ok (.ok a))
    (hfmtOk : ∃ w, env.convertSidToStringSidW a.sid = .ok w)
    (hcoh : ∀ w, env.convertSidToStringSidW a.sid = .ok w →
      ∃ p, env.convertStringSidToSidW (encode_utf16 (env.toUtf8Str w) ++ [0]) = .ok p
        ∧ p.is_invalid = false ∧ env.isValidSid p = true
        ∧ env.copySid p (env.getLengthSid p) = .ok a.sid) :
    ∃ t, (Sid.fmt env a).1 = .ok t ∧ (Sid.from_str env t).1 = .ok (.ok a) := by
  obtain ⟨w, hw⟩ := hfmtOk
  obtain ⟨hne, hhead⟩ := from_str_ok_invariant env s a hparse
  obtain ⟨p, hp1, hp2, hp3, hp4⟩ := hcoh w hw
  refine ⟨env.toUtf8Str w, ?_, ?_⟩
  · simp [Sid.fmt, convert_sid_to_string_sid, hw]
  · obtain ⟨xs, hxs⟩ : ∃ xs, a.sid = 1 :: xs := by
      cases ha : a.sid with
      | nil => exact absurd ha hne
      | cons x xs =>
        rw [ha] at hhead
        simp only [List.head?_cons, Option.some.injEq] at hhead
        exact ⟨xs, by rw [hhead]⟩
    have hps : Sid.from_psid env p = (.ok (some a), []) := by
      have hmk : ({ sid := 1 :: xs } : Sid) = a := by rw [← hxs]
      simp [Sid.from_psid, hp2, hp3, hp4, hxs, hmk]
    simp [Sid.from_str, hp1, hps]

/-- The raw binary encoding of the well-known Everyone SID `S-1-1-0`:
revision 1, one sub-authority, World authority, sub-authority 0. -/
def everyoneBytes : List Nat := [1, 1, 0, 0, 0, 0, 0, 1, 0, 0, 0, 0]

/-- A concrete platform whose two string-conversion directions cohere on the
Everyone SID: handle `9` references `everyoneBytes`, whose canonical form is
`"S-1-1-0"`, which converts back to handle `9`. -/
def envRT : Platform where
  isValidSid := fun p => p == 9
  getLengthSid := fun _ => 12
  copySid := fun p _ => if p == 9 then .ok everyoneBytes else .error ()
  convertSidToStringSidW := fun bytes =>
    if bytes == everyoneBytes then .ok (encode_utf16 "S-1-1-0" ++ [0]) else .error ()
  convertStringSidToSidW := fun ws =>
    if ws == encode_utf16 "S-1-1-0" ++ [0] then .ok 9 else .error "invalid SID string"
  toUtf8Str := utf16ToStr
  lookupAccountSidProbe := fun _ => ⟨.error ERROR_INSUFFICIENT_BUFFER, 9, 0⟩
  lookupAccountSidFill := fun _ nl dl => .ok ⟨encode_utf16 "Everyone" ++ [0], [0], nl, dl⟩

/-- Concrete instantiation of `parse_format_roundtrip`: on `envRT`, parsing
the well-known string `"S-1-1-0"` succeeds, formatting the result returns
exactly `"S-1-1-0"`, and re-parsing yields an equal Identifier. -/
theorem parse_format_roundtrip_witness :
    (Sid.from_str envRT "S-1-1-0").1 = .ok (.ok ⟨everyoneBytes⟩)
  ∧ (Sid.fmt envRT ⟨everyoneBytes⟩).1 = .ok "S-1-1-0"
  ∧ ∃ t, (Sid.fmt envRT ⟨everyoneBytes⟩).1 = .ok t
      ∧ (Sid.from_str envRT t).1 = .ok (.ok ⟨everyoneBytes⟩) := by
  refine ⟨rfl, rfl, ?_⟩
  refine parse_format_roundtrip envRT "S-1-1-0" ⟨everyoneBytes⟩ rfl
    ⟨encode_utf16 "S-1-1-0" ++ [0], rfl⟩ ?_
  intro w hw
  have h2 : Except.ok (ε := Unit) (encode_utf16 "S-1-1-0" ++ [0]) = .ok w := hw
  injection h2 with h2
  subst h2
  exact ⟨9, rfl, rfl, rfl, rfl⟩

/-- Whether an outcome is a fatal abort. -/
def Outcome.isFatal {α : Type} : Outcome α → Bool
  | .ok _ => false
  | .fatal _ => true

/-- The events emitted by `from_psid` itself: nothing, or a single debug
diagnostic — `from_psid` never acquires or releases a native buffer. -/
theorem from_psid_events (env : Platform) (p : Psid) :
    (Sid.from_psid env p).2 = [] ∨ (Sid.from_psid env p).2 = [.log] := by
  simp only [Sid.from_psid]
  split
  · exact .inl rfl
  · split
    · exact .inl rfl
    · split
      · exact .inr rfl
      · split
        · exact .inl rfl
        · split
          · exact .inl rfl
          · exact .inl rfl

/-- A concrete platform on which `ConvertStringSidToSidW` succeeds but the
copied structure has revision 2, so `from_psid` aborts fatally inside
`from_str` before the `LocalFree` call. -/
def envLeak : Platform where
  isValidSid := fun _ => true
  getLengthSid := fun _ => 1
  copySid := fun _ _ => .ok [2]
  convertSidToStringSidW := fun _ => .error ()
  convertStringSidToSidW := fun _ => .ok 5
  toUtf8Str := utf16ToStr
  lookupAccountSidProbe := fun _ => ⟨.error 5, 0, 0⟩
  lookupAccountSidFill := fun _ _ _ => .error ()

/-- Counterexample to claim C9 as stated: on `envLeak`, `from_str` acquires
the native structure (one `allocPsid` event) and then exits by
panic-unwind from the revision assertion, with zero `freePsid` events —
the release is NOT performed on every exit path, because the source calls
`LocalFree` only after `from_psid` returns normally. -/
theorem from_str_release_counterexample :
    (Sid.from_str envLeak "S-1-9-9").1 = .fatal "Expected SID revision to be 1"
  ∧ (Sid.from_str envLeak "S-1-9-9").2 = [.allocPsid]
  ∧ (Sid.from_str envLeak "S-1-9-9").2.count .allocPsid = 1
  ∧ (Sid.from_str envLeak "S-1-9-9").2.count .freePsid = 0 :=
  ⟨rfl, rfl, rfl, rfl⟩

/-- Claim C9 amended: on every non-panicking exit of `from_str` the native
structure is released exactly as many times as it was acquired — never
leaked, never double-freed — and nothing is freed when the conversion
failed before allocating; `Display::fmt` likewise releases the native
string exactly once when it was allocated and frees nothing when the
conversion failed.  (On a panic-unwind out of `from_psid` the release is
skipped; see the counterexample.) -/
theorem native_release_balanced (env : Platform) (s : String) (a : Sid) :
    ((∃ e, env.convertStringSidToSidW (encode_utf16 s ++ [0]) = .error e) →
      (Sid.from_str env s).2 = [])
  ∧ ((Sid.from_str env s).1.isFatal = false →
      (Sid.from_str env s).2.count .allocPsid = (Sid.from_str env s).2.count .freePsid
      ∧ (Sid.from_str env s).2.count .freePsid ≤ 1)
  ∧ ((Sid.fmt env a).2.count .allocStringSid = (Sid.fmt env a).2.count .freeStringSid
      ∧ (Sid.fmt env a).2.count .freeStringSid ≤ 1)
  ∧ (∀ e, env.convertSidToStringSidW a.sid = .error e →
      (Sid.fmt env a).2.count .freeStringSid = 0) := by
  refine ⟨?_, ?_, ?_, ?_⟩
  · rintro ⟨e, he⟩
    simp [Sid.from_str, he]
  · intro hok
    have hev := from_psid_events env
    simp only [Sid.from_str] at hok ⊢
    cases hc : env.convertStringSidToSidW (encode_utf16 s ++ [0]) with
    | error e => simp [hc]
    | ok psid =>
      rw [hc] at hok
      cases hps : Sid.from_psid env psid with
      | mk r ev =>
        have hev2 := hev psid
        simp only [hps] at hev2
        cases r with
        | fatal m =>
          simp [Outcome.isFatal, hps] at hok
        | ok o =>
          cases o with
          | none =>
            simp [Outcome.isFatal, hps] at hok
          | some sid =>
            simp only [hps]
            rcases hev2 with h | h <;> subst h <;> decide
  · unfold Sid.fmt convert_sid_to_string_sid
    cases hc : env.convertSidToStringSidW a.sid with
    | error e => simp
    | ok w => simp
  · intro e he
    simp [Sid.fmt, convert_sid_to_string_sid, he]

/-- Concrete instantiation of `native_release_balanced`: on `envOk`, a
failed conversion emits no events, and a successful non-panicking parse
acquires and releases the native structure exactly once. -/
theorem native_release_balanced_witness :
    (Sid.from_str envOk "not-a-sid").2 = []
  ∧ ((Sid.from_str envOk "S-1-2-3").2.count .allocPsid
      = (Sid.from_str envOk "S-1-2-3").2.count .freePsid
    ∧ (Sid.from_str envOk "S-1-2-3").2.count .freePsid ≤ 1) :=
  ⟨(native_release_balanced envOk "not-a-sid" ⟨[1, 2, 3]⟩).1 ⟨"invalid SID string", rfl⟩,
   (native_release_balanced envOk "S-1-2-3" ⟨[1, 2, 3]⟩).2.1 rfl⟩

/-- Concrete instantiation of `account_name_is_name_component` on `envOk`. -/
theorem account_name_is_name_component_witness :
    Sid.account_name envOk ⟨[1, 2, 3]⟩
      = (Sid.account_name_and_domain envOk ⟨[1, 2, 3]⟩).map Prod.fst :=
  (account_name_is_name_component envOk ⟨[1, 2, 3]⟩).1
